import Mathlib

/-!
Verification of the persona-lens snapshot-to-structured-data pipeline.

The definitions below are a shallow embedding of the Python code in
docs/plans/2026-02-22-kol-agent-plan.md (extract_tweet_data, _snowflake_to_ms,
compute_posting_patterns, _hour_to_slot) and of the author filter inline in
docs/plans/2026-02-27-acontext-session-backend.md (analyze).  Strings are
modelled over their character lists; regex character classes are modelled over
ASCII, which covers every input the claims reach.
-/

namespace PersonaLens

abbrev Chars := List Char

/-- Python str.strip() whitespace class (ASCII part of \s). -/
def pyWhitespace (c : Char) : Bool :=
  c = ' ' || c = '\t' || c = '\n' || c = '\r' || c = '\x0b' || c = '\x0c'

/-- Regex \w over ASCII: letters, digits, underscore. -/
def isWordChar (c : Char) : Bool := c.isAlphanum || c = '_'

/-- Regex \d over ASCII. -/
def isDigitChar (c : Char) : Bool := c.isDigit

/-- Drop characters matching p from both ends, as Python str.strip(chars). -/
def stripEnds (p : Char → Bool) (s : Chars) : Chars :=
  ((s.dropWhile p).reverse.dropWhile p).reverse

/-- Python str.strip() with no argument. -/
def pyStrip (s : Chars) : Chars := stripEnds pyWhitespace s

/-- If lit is an initial segment of s, return the remainder. -/
def dropLit : Chars → Chars → Option Chars
  | [], s => some s
  | _, [] => none
  | p :: ps, c :: cs => if p = c then dropLit ps cs else none

/-- Python str.splitlines() restricted to the \n, \r\n and \r terminators. -/
def splitLinesAux : Chars → Chars → List Chars
  | cur, [] => if cur.isEmpty then [] else [cur.reverse]
  | cur, '\r' :: '\n' :: rest => cur.reverse :: splitLinesAux [] rest
  | cur, '\n' :: rest => cur.reverse :: splitLinesAux [] rest
  | cur, '\r' :: rest => cur.reverse :: splitLinesAux [] rest
  | cur, c :: rest => splitLinesAux (c :: cur) rest

def splitLines (s : String) : List Chars := splitLinesAux [] s.data

/-- Value of a decimal digit list, most significant first. -/
def digitsVal (l : Chars) : Nat := l.foldl (fun a c => 10 * a + (c.toNat - 48)) 0

/-- Python int() digit part: digits with single underscores allowed between
digits (the CPython grammar d(("_")?d)*); returns the value, or none on a
malformed tail. The first character is checked by the caller. -/
def pyDigitsAux : Nat → Chars → Option Nat
  | acc, [] => some acc
  | acc, c :: cs =>
    if c.isDigit then pyDigitsAux (10 * acc + (c.toNat - 48)) cs
    else if c = '_' then
      match cs with
      | c2 :: cs2 => if c2.isDigit then pyDigitsAux (10 * acc + (c2.toNat - 48)) cs2 else none
      | [] => none
    else none

/-- Python int(s) for a str argument: surrounding whitespace stripped, optional
sign, then a digit run with optional single underscores between digits.
none models a ValueError. -/
def pyInt (s : String) : Option Int :=
  match pyStrip s.data with
  | '+' :: c :: cs => if c.isDigit then (pyDigitsAux 0 (c :: cs)).map Int.ofNat else none
  | '-' :: c :: cs =>
      if c.isDigit then (pyDigitsAux 0 (c :: cs)).map (fun n => -(n : Int)) else none
  | c :: cs => if c.isDigit then (pyDigitsAux 0 (c :: cs)).map Int.ofNat else none
  | [] => none

def _TWITTER_EPOCH_MS : Int := 1288834974657

/-- _snowflake_to_ms from tweet_parser.py: (int(tweet_id) >> 22) + epoch,
with ValueError/OverflowError mapped to 0.  Python's >> on int is an
arithmetic shift, i.e. floor division by 2^22. -/
def snowflake_to_ms (tweet_id : String) : Int :=
  match pyInt tweet_id with
  | some n => Int.fdiv n (Int.ofNat (2 ^ 22)) + _TWITTER_EPOCH_MS
  | none => 0

/-- Try to match the regex /url: /\w+/status/(\d+)#m at the head of s,
returning the captured digit run.  Backtracking never helps here because
'/' is not a word character and '#' is not a digit. -/
def matchIdAt (s : Chars) : Option String :=
  match dropLit "/url: /".data s with
  | none => none
  | some r1 =>
    if (r1.takeWhile isWordChar).isEmpty then none
    else
      match dropLit "/status/".data (r1.dropWhile isWordChar) with
      | none => none
      | some r2 =>
        if (r2.takeWhile isDigitChar).isEmpty then none
        else
          match dropLit "#m".data (r2.dropWhile isDigitChar) with
          | none => none
          | some _ => some (String.mk (r2.takeWhile isDigitChar))

/-- re.search of the id pattern: leftmost match in the line. -/
def searchId : Chars → Option String
  | [] => none
  | c :: cs =>
    match matchIdAt (c :: cs) with
    | some d => some d
    | none => searchId cs

/-- Characters matched by the stats-token regex [\d,]. -/
def isNumTokChar (c : Char) : Bool := c.isDigit || c = ','

/-- Accumulating scanner behind numTokens: cur holds the current run
reversed. -/
def numTokensAux : Chars → Chars → List String
  | cur, [] => if cur.isEmpty then [] else [String.mk cur.reverse]
  | cur, c :: cs =>
    if isNumTokChar c then numTokensAux (c :: cur) cs
    else if cur.isEmpty then numTokensAux [] cs
    else String.mk cur.reverse :: numTokensAux [] cs

/-- re.findall(r'[\d,]+', s): the maximal runs of digit/comma characters. -/
def numTokens (s : Chars) : List String := numTokensAux [] s

/-- n.replace(',', ''). -/
def stripCommas (s : String) : String := String.mk (s.data.filter (fun c => c ≠ ','))

/-- int(s) for a string already known to hold only digit characters if valid:
none models the ValueError raised on an empty or non-digit string (reachable
when a stats token consists solely of commas). -/
def pyIntOfDigits (s : String) : Option Nat :=
  if s.data ≠ [] ∧ s.data.all Char.isDigit then some (digitsVal s.data) else none

/-- The engagement parsing of extract_tweet_data on a present, truthy
pending_stats line: tokens are found by re.findall(r'[\d,]+', ·), commas are
stripped and each token converted by int(); three or more tokens give
(replies, retweets, likes) from the first three, two give (0, retweets,
likes), one gives (0, 0, likes), zero gives (0, 0, 0).  none models the
ValueError a digit-free token raises. -/
def parseStats (s : String) : Option (Nat × Nat × Nat) :=
  match (numTokens s.data).mapM (fun tok => pyIntOfDigits (stripCommas tok)) with
  | none => none
  | some (n1 :: n2 :: n3 :: _) => some (n1, n2, n3)
  | some [n1, n2] => some (0, n1, n2)
  | some [n1] => some (0, 0, n1)
  | some [] => some (0, 0, 0)

/-- The `if pending_stats:` guard: a missing or empty stats line leaves all
three counters at 0. -/
def statsOfPending : Option String → Option (Nat × Nat × Nat)
  | some s => if s = "" then some (0, 0, 0) else parseStats s
  | none => some (0, 0, 0)

/-- One parsed tweet dict.  extract_tweet_data never sets an author key, so
dict.get("author") yields None there; the backend filter reads it, hence the
optional field. -/
structure Tweet where
  id : String
  text : String
  timestamp_ms : Int
  likes : Nat
  retweets : Nat
  replies : Nat
  author : Option String := none
deriving Repr, DecidableEq

/-- re.fullmatch(r'[\d,\s]+', content): nonempty and every character a digit,
comma or whitespace. -/
def isStatsContent (s : Chars) : Bool :=
  !s.isEmpty && s.all (fun c => c.isDigit || c = ',' || pyWhitespace c)

/-- " ".join(l). -/
def joinSpace (l : List String) : String := String.intercalate " " l

/-- The loop state of extract_tweet_data. -/
structure ScanState where
  pending_texts : List String
  pending_stats : Option String
  tweets : List Tweet
deriving Repr, DecidableEq

/-- The post-boundary branch of the loop body: parse the pending stats,
join the pending texts, emit the tweet and clear both accumulators.  none
propagates the ValueError of a malformed stats token.  The emission guard
`if text or tweet_id:` is kept verbatim even though the captured id is never
empty. -/
def emitAt (st : ScanState) (tweet_id : String) : Option ScanState :=
  match statsOfPending st.pending_stats with
  | none => none
  | some (replies, retweets, likes) =>
    if pyStrip (joinSpace st.pending_texts).data ≠ [] ∨ tweet_id ≠ "" then
      some ⟨[], none, st.tweets ++
        [⟨tweet_id, String.mk (pyStrip (joinSpace st.pending_texts).data),
          snowflake_to_ms tweet_id, likes, retweets, replies, none⟩]⟩
    else some ⟨[], none, st.tweets⟩

/-- The content-line branch of the loop body: the payload after the
"- text:" marker, stripped of whitespace then of double quotes, goes to the
stats slot when digit-shaped and to the text accumulator otherwise. -/
def contentAt (st : ScanState) (rest : Chars) : ScanState :=
  if isStatsContent (stripEnds (fun c => c = '\x22') (pyStrip rest)) then
    ⟨st.pending_texts, some (String.mk (stripEnds (fun c => c = '\x22') (pyStrip rest))),
      st.tweets⟩
  else
    ⟨st.pending_texts ++ [String.mk (stripEnds (fun c => c = '\x22') (pyStrip rest))],
      st.pending_stats, st.tweets⟩

/-- The body of extract_tweet_data's for-loop on one (already stripped)
line: boundary lines first, then content lines, all else ignored. -/
def scanStep (st : ScanState) (line : Chars) : Option ScanState :=
  match searchId line with
  | some tweet_id => emitAt st tweet_id
  | none =>
    match dropLit "- text:".data line with
    | some rest => some (contentAt st rest)
    | none => some st

/-- The for-loop of extract_tweet_data over the stripped lines. -/
def scanLines : ScanState → List Chars → Option ScanState
  | st, [] => some st
  | st, l :: ls =>
    match scanStep st l with
    | none => none
    | some st' => scanLines st' ls

/-- extract_tweet_data from tweet_parser.py.  none models an uncaught
ValueError from the engagement int() conversion. -/
def extract_tweet_data (snapshot : String) : Option (List Tweet) :=
  let lines := (splitLines snapshot).map pyStrip
  (scanLines ⟨[], none, []⟩ lines).map ScanState.tweets

/-- Count of lines recognized as post boundaries by the primary pattern
(after the per-line strip), used to state the parser's cardinality claims. -/
def boundaryLineCount (snapshot : String) : Nat :=
  ((splitLines snapshot).map pyStrip).countP (fun l => (searchId l).isSome)

/-- The ids of the boundary lines in input order (one per matching line). -/
def boundaryIds (snapshot : String) : List String :=
  ((splitLines snapshot).map pyStrip).filterMap searchId

/-! ## Cadence aggregator (patterns.py) -/

def _TIME_SLOTS : List (String × Nat) :=
  [("00-04", 0), ("04-08", 4), ("08-12", 8), ("12-16", 12), ("16-20", 16), ("20-24", 20)]

/-- _hour_to_slot: first slot of reversed _TIME_SLOTS whose start the hour
reaches. -/
def hour_to_slot (hour : Nat) : String :=
  match _TIME_SLOTS.reverse.find? (fun p => hour ≥ p.2) with
  | some p => p.1
  | none => "00-04"

/-- strftime("%A") day names, Monday-indexed as in Python's weekday(). -/
def dayNames : List String :=
  ["Monday", "Tuesday", "Wednesday", "Thursday", "Friday", "Saturday", "Sunday"]

/-- Seconds-since-epoch of a millisecond timestamp, as computed via
datetime.fromtimestamp(ts_ms/1000, tz=utc): floor division (sub-millisecond
float error never crosses a second boundary for integer millisecond input). -/
def utcSeconds (ts_ms : Int) : Int := Int.fdiv ts_ms 1000

/-- The UTC hour of a millisecond timestamp (dt.hour). -/
def utcHour (ts_ms : Int) : Nat := (((utcSeconds ts_ms).fdiv 3600).emod 24).toNat

/-- The UTC day-of-week name of a millisecond timestamp (dt.strftime("%A")).
1970-01-01 was a Thursday, index 3 of dayNames. -/
def utcDayName (ts_ms : Int) : String :=
  dayNames.getD ((((utcSeconds ts_ms).fdiv 86400) + 3).emod 7).toNat ""

/-- Counter[k] += 1 on an insertion-ordered association list. -/
def incr : List (String × Nat) → String → List (String × Nat)
  | [], k => [(k, 1)]
  | (k', v) :: rest, k => if k' = k then (k', v + 1) :: rest else (k', v) :: incr rest k

/-- Read a counter with default 0, the view shared by dict(Counter) output. -/
def lookupCount (m : List (String × Nat)) (k : String) : Nat :=
  match m.find? (fun p => p.1 = k) with
  | some p => p.2
  | none => 0

structure CadenceReport where
  peak_days : List (String × Nat)
  peak_hours : List (String × Nat)
deriving Repr, DecidableEq

/-- The for-loop of compute_posting_patterns: `if not ts_ms: continue` skips
exactly the zero timestamps. -/
def cadenceLoop (days hours : List (String × Nat)) : List Tweet → CadenceReport
  | [] => ⟨days, hours⟩
  | t :: ts =>
    if t.timestamp_ms = 0 then cadenceLoop days hours ts
    else
      cadenceLoop (incr days (utcDayName t.timestamp_ms))
        (incr hours (hour_to_slot (utcHour t.timestamp_ms))) ts

/-- compute_posting_patterns from patterns.py. -/
def compute_posting_patterns (tweets : List Tweet) : CadenceReport :=
  cadenceLoop [] [] tweets

/-! ## Author filter (server.py analyze) -/

/-- str.lower(), ASCII model. -/
def pyLower (s : String) : String := String.mk (s.data.map Char.toLower)

/-- str.lstrip("@"). -/
def lstripAt (s : String) : String := String.mk (s.data.dropWhile (fun c => c = '@'))

/-- The user_tweets comprehension in analyze: keep a tweet when its author is
None or, with leading "@" stripped, equals the (already "@"-stripped) target
username case-insensitively. -/
def filter_by_author (posts : List Tweet) (target_username : String) : List Tweet :=
  let username := lstripAt target_username
  posts.filter (fun t =>
    match t.author with
    | none => true
    | some a => pyLower (lstripAt a) == pyLower username)

/-! ## Fallback strategy (spec-modelled) -/

/-- Modelled from the spec: the looser permalink shape
`/<username>/status/<digits>` with the trailing fragment optional, matched at
the head of the text.  The production parser module carrying the fallback
pass (persona_lens/platforms/x/parser.py) is not among the provided sources;
only the spec (§4.1 Fallback strategy) describes it. -/
def matchLooseAt (s : Chars) : Option String :=
  match s with
  | '/' :: r1 =>
    let w := r1.takeWhile isWordChar
    if w.isEmpty then none
    else
      match dropLit "/status/".data (r1.dropWhile isWordChar) with
      | none => none
      | some r2 =>
        let d := r2.takeWhile isDigitChar
        if d.isEmpty then none else some (String.mk d)
  | _ => none

/-- Modelled from the spec: leftmost search of the loose permalink shape in a
line. -/
def searchLoose : Chars → Option String
  | [] => none
  | c :: cs =>
    match matchLooseAt (c :: cs) with
    | some d => some d
    | none => searchLoose cs

/-- Modelled from the spec: the fallback pass treats every permalink line as a
boundary regardless of the TOC-distinction heuristic and attributes all text
seen since the previous boundary (or start) to the new post.  The spec gives
the fallback no engagement parsing, so counters stay 0. -/
def fallbackLoop (pending : List String) : List Chars → List Tweet
  | [] => []
  | l :: ls =>
    match searchLoose l with
    | some tweet_id =>
      ⟨tweet_id, String.mk (pyStrip (joinSpace pending).data), snowflake_to_ms tweet_id,
        0, 0, 0, none⟩ :: fallbackLoop [] ls
    | none => fallbackLoop (pending ++ [String.mk l]) ls

/-- Modelled from the spec: the looser whole-snapshot extraction pass. -/
def fallbackParse (snapshot : String) : List Tweet :=
  fallbackLoop [] ((splitLines snapshot).map pyStrip)

/-- Count of loose boundary lines, used to state the fallback cardinality. -/
def looseBoundaryCount (snapshot : String) : Nat :=
  ((splitLines snapshot).map pyStrip).countP (fun l => (searchLoose l).isSome)

/-- Modelled from the spec: the two-strategy pipeline — primary pass first,
and when it yields zero posts on a non-empty snapshot, the fallback pass. -/
def parse_posts (snapshot : String) : Option (List Tweet) :=
  match extract_tweet_data snapshot with
  | none => none
  | some ts => if ts = [] ∧ snapshot ≠ "" then some (fallbackParse snapshot) else some ts

/-- A text built only from accumulated non-stats content payloads: the shape
every emitted tweet's text has. -/
def goodText (t : Tweet) : Prop :=
  ∃ l : List String,
    t.text = String.mk (pyStrip (joinSpace l).data) ∧ ∀ s ∈ l, isStatsContent s.data = false

/-- Loop invariant: the pending text accumulator holds no stats-shaped
payload and every tweet emitted so far has a goodText. -/
def goodState (st : ScanState) : Prop :=
  (∀ s ∈ st.pending_texts, isStatsContent s.data = false) ∧ ∀ t ∈ st.tweets, goodText t

/-! ## Shared lemmas -/

theorem int_fdiv_ofNat (m k : Nat) :
    Int.fdiv (Int.ofNat m) (Int.ofNat k) = Int.ofNat (m / k) := (Int.ofNat_fdiv m k).symm

theorem snowflake_of_pyInt_nat (s : String) (n : Nat) (h : pyInt s = some (Int.ofNat n)) :
    snowflake_to_ms s = Int.ofNat (n / 2 ^ 22) + _TWITTER_EPOCH_MS := by
  unfold snowflake_to_ms
  rw [h]
  show Int.fdiv (Int.ofNat n) (Int.ofNat (2 ^ 22)) + _TWITTER_EPOCH_MS =
    Int.ofNat (n / 2 ^ 22) + _TWITTER_EPOCH_MS
  rw [int_fdiv_ofNat]

/-! ## Claim theorems: temporal decoder -/

/-- C3 counterexample: the claim asserts decode_timestamp("0") = 0, but the
code decodes the numeric string "0" by the formula and returns the epoch
offset 1288834974657. -/
theorem snowflake_zero_counterex :
    snowflake_to_ms "0" = 1288834974657 ∧ ¬ snowflake_to_ms "0" = 0 := by
  constructor
  · decide
  · decide

/-- C3 (amended): decode_timestamp returns 0 on any id whose int() conversion
fails, in particular on "not-a-number"; but the numeric id "0" is decoded by
the snowflake formula and yields _TWITTER_EPOCH_MS = 1288834974657, not 0. -/
theorem snowflake_error_to_zero :
    snowflake_to_ms "not-a-number" = 0 ∧
    snowflake_to_ms "0" = _TWITTER_EPOCH_MS ∧
    ∀ s : String, pyInt s = none → snowflake_to_ms s = 0 := by
  refine ⟨by decide, by decide, ?_⟩
  intro s h
  unfold snowflake_to_ms
  rw [h]

/-- C3 witness: the general clause applied at the concrete id "abc". -/
theorem snowflake_error_to_zero_witness :
    pyInt "abc" = none ∧ snowflake_to_ms "abc" = 0 :=
  ⟨by decide, snowflake_error_to_zero.2.2 "abc" (by decide)⟩

/-- C4: on every id string that int() parses as an unsigned integer n, the
decoder returns exactly (n >> 22) + 1288834974657, the fixed epoch offset;
no timezone adjustment enters the formula. -/
theorem snowflake_formula (s : String) (n : Nat) (h : pyInt s = some (Int.ofNat n)) :
    snowflake_to_ms s = Int.ofNat (n >>> 22) + 1288834974657 := by
  rw [snowflake_of_pyInt_nat s n h, Nat.shiftRight_eq_div_pow]
  rfl

/-- C4 witness: the formula at the sample id of the plan's tests. -/
theorem snowflake_formula_witness :
    snowflake_to_ms "1750000000000000001" =
      Int.ofNat (1750000000000000001 >>> 22) + 1288834974657 :=
  snowflake_formula "1750000000000000001" 1750000000000000001 (by decide)

/-- C9: the decoder is monotone in the numeric value of the id — if both ids
parse as unsigned integers and the first is numerically smaller, the first
decoded timestamp is no larger than the second. -/
theorem snowflake_monotone (s1 s2 : String) (n1 n2 : Nat)
    (h1 : pyInt s1 = some (Int.ofNat n1)) (h2 : pyInt s2 = some (Int.ofNat n2))
    (hlt : n1 < n2) : snowflake_to_ms s1 ≤ snowflake_to_ms s2 := by
  rw [snowflake_of_pyInt_nat s1 n1 h1, snowflake_of_pyInt_nat s2 n2 h2]
  have hdiv : n1 / 2 ^ 22 ≤ n2 / 2 ^ 22 := Nat.div_le_div_right (Nat.le_of_lt hlt)
  exact add_le_add_right (Int.ofNat_le.mpr hdiv) _

/-- C9 witness: monotonicity at a concrete pair of ids. -/
theorem snowflake_monotone_witness :
    snowflake_to_ms "4194304" ≤ snowflake_to_ms "8388608" :=
  snowflake_monotone "4194304" "8388608" 4194304 8388608 (by decide) (by decide) (by decide)

/-! ## Claim theorems: stats-line token mapping -/

/-- C2: the digit-group tokens of the pending stats line (thousands
separators stripped) map to (replies, retweets, likes) when exactly three are
present, to (retweets, likes) when exactly two, to (likes) when exactly one,
and to all zeros when there are zero tokens or no stats line; a stats line
"1,234  56" gives retweets=1234, likes=56, replies=0, as witnessed both on
parseStats and end-to-end through extract_tweet_data at a post boundary. -/
theorem stats_token_mapping (s : String) (vals : List Nat)
    (h : (numTokens s.data).mapM (fun tok => pyIntOfDigits (stripCommas tok)) = some vals) :
    (∀ v1 v2 v3, vals = [v1, v2, v3] → parseStats s = some (v1, v2, v3)) ∧
    (∀ v1 v2, vals = [v1, v2] → parseStats s = some (0, v1, v2)) ∧
    (∀ v1, vals = [v1] → parseStats s = some (0, 0, v1)) ∧
    (vals = [] → parseStats s = some (0, 0, 0)) ∧
    statsOfPending none = some (0, 0, 0) ∧
    parseStats "1,234  56" = some (0, 1234, 56) ∧
    extract_tweet_data "- text: \x22hi\x22\n- text: \x221,234  56\x22\n/url: /a/status/5#m" =
      some [⟨"5", "hi", 1288834974657, 56, 1234, 0, none⟩] := by
  refine ⟨?_, ?_, ?_, ?_, rfl, by decide, by decide⟩
  · intro v1 v2 v3 hv
    subst hv
    unfold parseStats
    rw [h]
  · intro v1 v2 hv
    subst hv
    unfold parseStats
    rw [h]
  · intro v1 hv
    subst hv
    unfold parseStats
    rw [h]
  · intro hv
    subst hv
    unfold parseStats
    rw [h]

/-- C2 witness: the two-token clause at the concrete line of Scenario B. -/
theorem stats_token_mapping_witness :
    parseStats "1,234  56" = some (0, 1234, 56) :=
  (stats_token_mapping "1,234  56" [1234, 56] (by decide)).2.1 1234 56 rfl

/-! ## Claim theorems: author filter -/

/-- C8 counterexample: the filter keeps a post whose non-null author "@Alice"
differs case-insensitively from the target "alice" as a string, because the
code strips leading "@" before comparing. -/
theorem filter_author_counterex :
    filter_by_author [⟨"1", "x", 1, 0, 0, 0, some "@Alice"⟩] "alice" =
      [⟨"1", "x", 1, 0, 0, 0, some "@Alice"⟩] ∧
    pyLower "@Alice" ≠ pyLower "alice" := by
  constructor
  · decide
  · decide

/-- C8 (amended): filter_by_author never lengthens the list, keeps every post
with a null author, and keeps a post with a non-null author only when that
author equals the target case-insensitively after leading "@" characters are
stripped from both sides. -/
theorem filter_author_spec (posts : List Tweet) (target : String) :
    (filter_by_author posts target).length ≤ posts.length ∧
    (∀ t ∈ filter_by_author posts target, ∀ a, t.author = some a →
      pyLower (lstripAt a) = pyLower (lstripAt target)) ∧
    (∀ t ∈ posts, t.author = none → t ∈ filter_by_author posts target) := by
  refine ⟨List.length_filter_le _ _, ?_, ?_⟩
  · intro t ht a ha
    have hmem := List.mem_filter.mp ht
    have hpred := hmem.2
    rw [ha] at hpred
    exact eq_of_beq hpred
  · intro t ht ha
    refine List.mem_filter.mpr ⟨ht, ?_⟩
    rw [ha]

/-- C8 witness: applied to one null-author post and one mismatched author. -/
theorem filter_author_spec_witness :
    (⟨"1", "x", 1, 0, 0, 0, none⟩ : Tweet) ∈
      filter_by_author [⟨"1", "x", 1, 0, 0, 0, none⟩, ⟨"2", "y", 1, 0, 0, 0, some "eve"⟩] "bob" :=
  (filter_author_spec [⟨"1", "x", 1, 0, 0, 0, none⟩, ⟨"2", "y", 1, 0, 0, 0, some "eve"⟩]
    "bob").2.2 _ (by simp) rfl

/-! ## Scan-loop lemmas -/

theorem matchIdAt_some_shape (s : Chars) (i : String) (h : matchIdAt s = some i) :
    ∃ d : Chars, i = String.mk d ∧ d.isEmpty = false := by
  unfold matchIdAt at h
  cases h1 : dropLit "/url: /".data s with
  | none => simp [h1] at h
  | some r1 =>
    simp only [h1] at h
    by_cases hw : (r1.takeWhile isWordChar).isEmpty = true
    · rw [if_pos hw] at h; exact absurd h (by simp)
    · rw [if_neg hw] at h
      cases h2 : dropLit "/status/".data (r1.dropWhile isWordChar) with
      | none => simp [h2] at h
      | some r2 =>
        simp only [h2] at h
        by_cases hd : (r2.takeWhile isDigitChar).isEmpty = true
        · rw [if_pos hd] at h; exact absurd h (by simp)
        · rw [if_neg hd] at h
          cases h3 : dropLit "#m".data (r2.dropWhile isDigitChar) with
          | none => simp [h3] at h
          | some r3 =>
            simp only [h3] at h
            obtain rfl := Option.some.inj h
            exact ⟨_, rfl, by simpa using hd⟩

theorem searchId_shape :
    ∀ (l : Chars) (i : String), searchId l = some i →
      ∃ d : Chars, i = String.mk d ∧ d.isEmpty = false := by
  intro l
  induction l with
  | nil => intro i h; simp [searchId] at h
  | cons c cs ih =>
    intro i h
    unfold searchId at h
    cases hm : matchIdAt (c :: cs) with
    | some j =>
      simp only [hm] at h
      obtain rfl := Option.some.inj h
      exact matchIdAt_some_shape _ _ hm
    | none =>
      simp only [hm] at h
      exact ih i h

theorem searchId_ne_empty (l : Chars) (i : String) (h : searchId l = some i) : i ≠ "" := by
  obtain ⟨d, rfl, hne⟩ := searchId_shape l i h
  intro hcontra
  have hd : d = [] := by
    have := congrArg String.data hcontra
    simpa using this
  rw [hd] at hne
  simp at hne

theorem emitAt_length (st st' : ScanState) (tid : String) (htid : tid ≠ "")
    (h : emitAt st tid = some st') : st'.tweets.length = st.tweets.length + 1 := by
  unfold emitAt at h
  cases hst : statsOfPending st.pending_stats with
  | none => simp [hst] at h
  | some trip =>
    obtain ⟨rep, rt, lk⟩ := trip
    simp only [hst] at h
    rw [if_pos (Or.inr htid)] at h
    obtain rfl := Option.some.inj h
    simp

theorem contentAt_tweets (st : ScanState) (rest : Chars) :
    (contentAt st rest).tweets = st.tweets := by
  unfold contentAt
  split <;> rfl

theorem scanStep_length (st st' : ScanState) (l : Chars) (h : scanStep st l = some st') :
    st'.tweets.length = st.tweets.length + (if (searchId l).isSome then 1 else 0) := by
  unfold scanStep at h
  cases hid : searchId l with
  | some tid =>
    simp only [hid] at h
    simp only [Option.isSome_some, if_true]
    exact emitAt_length st st' tid (searchId_ne_empty l tid hid) h
  | none =>
    simp only [hid] at h
    simp only [Option.isSome_none, Bool.false_eq_true, if_false, Nat.add_zero]
    cases hdl : dropLit "- text:".data l with
    | some rest =>
      simp only [hdl] at h
      obtain rfl := Option.some.inj h
      rw [contentAt_tweets]
    | none =>
      simp only [hdl] at h
      obtain rfl := Option.some.inj h
      rfl

theorem scanLines_length :
    ∀ (ls : List Chars) (st st' : ScanState), scanLines st ls = some st' →
      st'.tweets.length = st.tweets.length + ls.countP (fun l => (searchId l).isSome) := by
  intro ls
  induction ls with
  | nil =>
    intro st st' h
    unfold scanLines at h
    obtain rfl := Option.some.inj h
    simp
  | cons l ls ih =>
    intro st st' h
    unfold scanLines at h
    cases hs : scanStep st l with
    | none => simp [hs] at h
    | some st1 =>
      simp only [hs] at h
      have h1 := scanStep_length st st1 l hs
      have h2 := ih st1 st' h
      rw [h2, h1, List.countP_cons]
      omega

theorem emitAt_good (st st' : ScanState) (tid : String) (hg : goodState st)
    (h : emitAt st tid = some st') : goodState st' := by
  unfold emitAt at h
  cases hst : statsOfPending st.pending_stats with
  | none => simp [hst] at h
  | some trip =>
    obtain ⟨rep, rt, lk⟩ := trip
    simp only [hst] at h
    split at h
    · obtain rfl := Option.some.inj h
      refine ⟨by simp, ?_⟩
      intro t ht
      rcases List.mem_append.mp ht with hin | hnew
      · exact hg.2 t hin
      · rw [List.mem_singleton.mp hnew]
        exact ⟨st.pending_texts, rfl, hg.1⟩
    · obtain rfl := Option.some.inj h
      exact ⟨by simp, hg.2⟩

theorem contentAt_good (st : ScanState) (rest : Chars) (hg : goodState st) :
    goodState (contentAt st rest) := by
  unfold contentAt
  split
  · exact ⟨hg.1, hg.2⟩
  · rename_i hns
    refine ⟨?_, hg.2⟩
    intro s hs
    rcases List.mem_append.mp hs with hin | hnew
    · exact hg.1 s hin
    · rw [List.mem_singleton.mp hnew]
      simpa using hns

theorem scanStep_good (st st' : ScanState) (l : Chars) (hg : goodState st)
    (h : scanStep st l = some st') : goodState st' := by
  unfold scanStep at h
  cases hid : searchId l with
  | some tid =>
    simp only [hid] at h
    exact emitAt_good st st' tid hg h
  | none =>
    simp only [hid] at h
    cases hdl : dropLit "- text:".data l with
    | some rest =>
      simp only [hdl] at h
      obtain rfl := Option.some.inj h
      exact contentAt_good st rest hg
    | none =>
      simp only [hdl] at h
      obtain rfl := Option.some.inj h
      exact hg

theorem scanLines_good :
    ∀ (ls : List Chars) (st st' : ScanState), goodState st → scanLines st ls = some st' →
      goodState st' := by
  intro ls
  induction ls with
  | nil =>
    intro st st' hg h
    unfold scanLines at h
    obtain rfl := Option.some.inj h
    exact hg
  | cons l ls ih =>
    intro st st' hg h
    unfold scanLines at h
    cases hs : scanStep st l with
    | none => simp [hs] at h
    | some st1 =>
      simp only [hs] at h
      exact ih st1 st' (scanStep_good st st1 l hg hs) h

/-! ## Claim theorems: snapshot parser cardinality -/

/-- C1 counterexample: a snapshot whose two boundary lines carry the same
permalink yields two Posts while holding exactly one distinct permalink id,
so the output length is not the number of distinct permalinks. -/
theorem extract_distinct_permalink_counterex :
    (extract_tweet_data (String.mk ("/url: /a/status/5#m\n/url: /a/status/5#m").data)).map
      List.length = some 2 ∧
    (boundaryIds "/url: /a/status/5#m\n/url: /a/status/5#m").dedup.length = 1 := by
  constructor
  · decide
  · decide

/-- C1 (amended): when extract_tweet_data returns without raising, it emits
exactly one Post per line the boundary pattern matches — occurrences, not
distinct ids, and with no TOC distinction beyond the pattern itself — so the
output length equals the number of boundary-matching lines. -/
theorem extract_one_post_per_boundary_line (snapshot : String) (ts : List Tweet)
    (h : extract_tweet_data snapshot = some ts) :
    ts.length = boundaryLineCount snapshot := by
  have h' : (scanLines ⟨[], none, []⟩ ((splitLines snapshot).map pyStrip)).map
      ScanState.tweets = some ts := h
  cases hs : scanLines ⟨[], none, []⟩ ((splitLines snapshot).map pyStrip) with
  | none => rw [hs] at h'; simp at h'
  | some st =>
    rw [hs] at h'
    simp only [Option.map_some'] at h'
    obtain rfl := Option.some.inj h'
    have := scanLines_length _ _ _ hs
    simpa [boundaryLineCount] using this

/-- C1 witness: the count at a concrete one-post snapshot. -/
theorem extract_one_post_per_boundary_line_witness :
    (1 : Nat) = boundaryLineCount "- text: \x22hi\x22\n/url: /a/status/5#m" := by
  have h := extract_one_post_per_boundary_line "- text: \x22hi\x22\n/url: /a/status/5#m"
    [⟨"5", "hi", 1288834974657, 0, 0, 0, none⟩] (by decide)
  simpa using h

/-! ## Claim theorems: stats lines never reach a post's text -/

/-- C10: during the scan, a content payload of digits, commas and whitespace
is routed to the stats slot and never appended to the text accumulator, so
every emitted Post's text is a join of non-stats payloads; concretely, a post
whose only body line is the number 12345 comes out with empty text (the
number is parsed as its likes count). -/
theorem stats_line_never_in_text :
    (∀ (snapshot : String) (ts : List Tweet), extract_tweet_data snapshot = some ts →
      ∀ t ∈ ts, goodText t) ∧
    extract_tweet_data "- text: \x2212345\x22\n/url: /a/status/9#m" =
      some [⟨"9", "", 1288834974657, 12345, 0, 0, none⟩] := by
  constructor
  · intro snapshot ts h t ht
    have h' : (scanLines ⟨[], none, []⟩ ((splitLines snapshot).map pyStrip)).map
        ScanState.tweets = some ts := h
    cases hs : scanLines ⟨[], none, []⟩ ((splitLines snapshot).map pyStrip) with
    | none => rw [hs] at h'; simp at h'
    | some st =>
      rw [hs] at h'
      simp only [Option.map_some'] at h'
      obtain rfl := Option.some.inj h'
      exact (scanLines_good _ _ _ ⟨by simp, by simp⟩ hs).2 t ht
  · decide

/-- C10 witness: the invariant applied to the concrete one-post snapshot. -/
theorem stats_line_never_in_text_witness :
    goodText ⟨"9", "", 1288834974657, 12345, 0, 0, none⟩ :=
  stats_line_never_in_text.1 "- text: \x2212345\x22\n/url: /a/status/9#m"
    [⟨"9", "", 1288834974657, 12345, 0, 0, none⟩] (by decide) _ (by simp)

/-! ## Boundary-pattern lemmas -/

theorem dropLit_append : ∀ (lit rest : Chars), dropLit lit (lit ++ rest) = some rest
  | [], _ => by simp [dropLit]
  | c :: cs, rest => by simp [dropLit, dropLit_append cs rest]

theorem takeWhile_app (p : Char → Bool) :
    ∀ (w : Chars) (c : Char) (r : Chars), w.all p = true → p c = false →
      (w ++ c :: r).takeWhile p = w ∧ (w ++ c :: r).dropWhile p = c :: r := by
  intro w
  induction w with
  | nil =>
    intro c r _ hc
    constructor
    · simp [List.takeWhile_cons, hc]
    · simp [List.dropWhile_cons, hc]
  | cons a w ih =>
    intro c r hall hc
    rw [List.all_cons, Bool.and_eq_true] at hall
    have hrec := ih c r hall.2 hc
    constructor
    · simp [List.takeWhile_cons, hall.1, hrec.1]
    · simp [List.dropWhile_cons, hall.1, hrec.2]

theorem matchIdAt_pattern (w d v : Chars) (hw : w ≠ []) (hwall : w.all isWordChar = true)
    (hd : d ≠ []) (hdall : d.all isDigitChar = true) :
    matchIdAt ("/url: /".data ++ (w ++ ("/status/".data ++ (d ++ ("#m".data ++ v))))) =
      some (String.mk d) := by
  unfold matchIdAt
  simp only [dropLit_append]
  rw [show "/status/".data ++ (d ++ ("#m".data ++ v)) =
    '/' :: ("status/".data ++ (d ++ ("#m".data ++ v))) from rfl]
  obtain ⟨ht1, hd1⟩ :=
    takeWhile_app isWordChar w '/' ("status/".data ++ (d ++ ("#m".data ++ v))) hwall (by decide)
  rw [ht1, hd1]
  rw [if_neg (by simpa using hw)]
  rw [show ('/' : Char) :: ("status/".data ++ (d ++ ("#m".data ++ v))) =
    "/status/".data ++ (d ++ ("#m".data ++ v)) from rfl]
  simp only [dropLit_append]
  rw [show "#m".data ++ v = '#' :: ("m".data ++ v) from rfl]
  obtain ⟨ht2, hd2⟩ := takeWhile_app isDigitChar d '#' ("m".data ++ v) hdall (by decide)
  rw [ht2, hd2]
  rw [if_neg (by simpa using hd)]
  rw [show ('#' : Char) :: ("m".data ++ v) = "#m".data ++ v from rfl]
  simp only [dropLit_append]

theorem searchId_isSome_of_matchIdAt (l : Chars) (i : String) (h : matchIdAt l = some i) :
    (searchId l).isSome = true := by
  cases l with
  | nil =>
    have hnone : matchIdAt ([] : Chars) = none := by decide
    rw [hnone] at h
    exact Option.noConfusion h
  | cons c cs =>
    unfold searchId
    simp only [h, Option.isSome_some]

theorem searchId_app_isSome (xs ys : Chars) (h : (searchId ys).isSome = true) :
    (searchId (xs ++ ys)).isSome = true := by
  induction xs with
  | nil => simpa
  | cons x xs ih =>
    rw [List.cons_append]
    unfold searchId
    cases hm : matchIdAt (x :: (xs ++ ys)) with
    | some j => simp
    | none => simpa using ih

/-! ## Claim theorems: boundary shape -/

/-- C6 counterexample: a line holding the permalink /alice/status/123 with no
trailing "#m" is not recognized as a boundary; in a snapshot carrying that
line plus one "#m" permalink only a single Post comes out, its text "a b"
spanning across the unrecognized permalink. -/
theorem fragment_marker_counterex :
    searchId "/url: /alice/status/123".data = none ∧
    extract_tweet_data
      "- text: \x22a\x22\n/url: /alice/status/123\n- text: \x22b\x22\n/url: /bob/status/456#m" =
      some [⟨"456", "a b", 1288834974657, 0, 0, 0, none⟩] := by
  constructor
  · decide
  · decide

/-- C6 (amended): a line is recognized as a post boundary whenever it holds
the full primary pattern "/url: /<word-chars>/status/<digits>#m"; the "#m"
fragment marker and the "/url: " marker are required, not optional — the bare
permalink "/url: /alice/status/123" and the markerless
"/alice/status/123#m" both fail to match. -/
theorem boundary_pattern_required :
    (∀ (u w d v : Chars), w ≠ [] → w.all isWordChar = true →
      d ≠ [] → d.all isDigitChar = true →
      (searchId
        (u ++ ("/url: /".data ++ (w ++ ("/status/".data ++ (d ++ ("#m".data ++ v))))))).isSome =
        true) ∧
    searchId "/url: /alice/status/123".data = none ∧
    searchId "/alice/status/123#m".data = none := by
  refine ⟨?_, by decide, by decide⟩
  intro u w d v hw hwall hd hdall
  exact searchId_app_isSome u _
    (searchId_isSome_of_matchIdAt _ _ (matchIdAt_pattern w d v hw hwall hd hdall))

/-- C6 witness: the positive clause at a concrete embedded permalink. -/
theorem boundary_pattern_required_witness :
    (searchId ("x ".data ++ ("/url: /".data ++ ("alice".data ++
      ("/status/".data ++ ("123".data ++ ("#m".data ++ " y".data))))))).isSome = true :=
  boundary_pattern_required.1 "x ".data "alice".data "123".data " y".data
    (by decide) (by decide) (by decide) (by decide)

/-! ## Claim theorems: fallback strategy (spec-modelled) -/

theorem fallbackLoop_length :
    ∀ (ls : List Chars) (pending : List String),
      (fallbackLoop pending ls).length = ls.countP (fun l => (searchLoose l).isSome) := by
  intro ls
  induction ls with
  | nil => intro pending; simp [fallbackLoop]
  | cons l ls ih =>
    intro pending
    unfold fallbackLoop
    cases hl : searchLoose l with
    | some tid =>
      simp only [hl, List.length_cons, List.countP_cons]
      rw [ih []]
      simp [hl]
    | none =>
      simp only [hl, List.countP_cons]
      rw [ih (pending ++ [String.mk l])]
      simp [hl]

/-- C5 (spec-modelled): when the primary pass yields zero posts on a
non-empty snapshot, parse_posts switches to the loose fallback pass, which
emits one post per loose-permalink line (TOC heuristic ignored, pending text
attributed to each boundary), so the result is not silently empty whenever
any loose boundary line is present. -/
theorem fallback_on_empty_primary (snapshot : String)
    (h0 : extract_tweet_data snapshot = some []) (hne : snapshot ≠ "") :
    parse_posts snapshot = some (fallbackParse snapshot) ∧
    (fallbackParse snapshot).length = looseBoundaryCount snapshot ∧
    (0 < looseBoundaryCount snapshot → fallbackParse snapshot ≠ []) := by
  refine ⟨?_, ?_, ?_⟩
  · unfold parse_posts
    simp only [h0]
    rw [if_pos ⟨trivial, hne⟩]
  · exact fallbackLoop_length ((splitLines snapshot).map pyStrip) []
  · intro hpos hnil
    have h2 : (fallbackParse snapshot).length = looseBoundaryCount snapshot :=
      fallbackLoop_length ((splitLines snapshot).map pyStrip) []
    rw [hnil] at h2
    simp at h2
    omega

/-- C5 witness: a snapshot on which the primary pattern finds nothing but the
fallback emits one post. -/
theorem fallback_on_empty_primary_witness :
    parse_posts "hello\n/alice/status/123" =
      some (fallbackParse "hello\n/alice/status/123") ∧
    fallbackParse "hello\n/alice/status/123" ≠ [] := by
  have h := fallback_on_empty_primary "hello\n/alice/status/123" (by decide) (by decide)
  exact ⟨h.1, h.2.2 (by decide)⟩

/-! ## Cadence-aggregator lemmas -/

theorem lookupCount_nil (k : String) : lookupCount [] k = 0 := rfl

theorem lookupCount_cons (k2 : String) (v : Nat) (rest : List (String × Nat)) (k' : String) :
    lookupCount ((k2, v) :: rest) k' = if k2 = k' then v else lookupCount rest k' := by
  unfold lookupCount
  by_cases h : k2 = k'
  · subst h; simp [List.find?]
  · simp [List.find?, h]

theorem lookupCount_incr (m : List (String × Nat)) (k k' : String) :
    lookupCount (incr m k) k' = lookupCount m k' + if k = k' then 1 else 0 := by
  induction m with
  | nil =>
    show lookupCount [(k, 1)] k' = lookupCount [] k' + if k = k' then 1 else 0
    rw [lookupCount_cons, lookupCount_nil]
    by_cases h : k = k' <;> simp [h]
  | cons p rest ih =>
    obtain ⟨k2, v⟩ := p
    show lookupCount (if k2 = k then (k2, v + 1) :: rest else (k2, v) :: incr rest k) k' = _
    by_cases h2 : k2 = k
    · rw [if_pos h2, lookupCount_cons, lookupCount_cons]
      subst h2
      by_cases h3 : k2 = k' <;> simp [h3]
    · rw [if_neg h2, lookupCount_cons, lookupCount_cons, ih]
      by_cases h3 : k2 = k'
      · subst h3
        rw [if_pos rfl, if_pos rfl, if_neg (fun hk => h2 hk.symm)]
        omega
      · rw [if_neg h3, if_neg h3]

theorem cadenceLoop_lookup :
    ∀ (ts : List Tweet) (days hours : List (String × Nat)),
      (∀ t ∈ ts, 0 ≤ t.timestamp_ms) →
      (∀ d, lookupCount (cadenceLoop days hours ts).peak_days d =
        lookupCount days d + ts.countP (fun t =>
          decide (0 < t.timestamp_ms) && decide (utcDayName t.timestamp_ms = d))) ∧
      (∀ b, lookupCount (cadenceLoop days hours ts).peak_hours b =
        lookupCount hours b + ts.countP (fun t =>
          decide (0 < t.timestamp_ms) && decide (hour_to_slot (utcHour t.timestamp_ms) = b))) := by
  intro ts
  induction ts with
  | nil => intro days hours _; simp [cadenceLoop]
  | cons t ts ih =>
    intro days hours hpos
    have ht : (0 : Int) ≤ t.timestamp_ms := hpos t (by simp)
    have hrest : ∀ x ∈ ts, (0 : Int) ≤ x.timestamp_ms := fun x hx => hpos x (by simp [hx])
    unfold cadenceLoop
    by_cases hz : t.timestamp_ms = 0
    · rw [if_pos hz]
      obtain ⟨ihd, ihh⟩ := ih days hours hrest
      constructor
      · intro d
        rw [ihd d, List.countP_cons]
        simp [hz]
      · intro b
        rw [ihh b, List.countP_cons]
        simp [hz]
    · rw [if_neg hz]
      have hlt : (0 : Int) < t.timestamp_ms := lt_of_le_of_ne ht (fun he => hz he.symm)
      obtain ⟨ihd, ihh⟩ :=
        ih (incr days (utcDayName t.timestamp_ms))
          (incr hours (hour_to_slot (utcHour t.timestamp_ms))) hrest
      constructor
      · intro d
        rw [ihd d, lookupCount_incr, List.countP_cons]
        by_cases hX : utcDayName t.timestamp_ms = d
        · simp [hX, hlt]; omega
        · simp [hX, hlt]
      · intro b
        rw [ihh b, lookupCount_incr, List.countP_cons]
        by_cases hX : hour_to_slot (utcHour t.timestamp_ms) = b
        · simp [hX, hlt]; omega
        · simp [hX, hlt]

/-! ## Claim theorems: cadence aggregator -/

/-- C7: the aggregator counts exactly the posts with a positive timestamp —
each such post lands in its UTC day-of-week bucket and in exactly one of the
six fixed four-hour bands, the band at index hour / 4; posts with timestamp 0
appear in neither histogram, and the empty list gives two empty mappings. -/
theorem compute_patterns_histograms (posts : List Tweet)
    (hpos : ∀ t ∈ posts, 0 ≤ t.timestamp_ms) :
    compute_posting_patterns [] = ⟨[], []⟩ ∧
    (∀ d, lookupCount (compute_posting_patterns posts).peak_days d =
      posts.countP (fun t =>
        decide (0 < t.timestamp_ms) && decide (utcDayName t.timestamp_ms = d))) ∧
    (∀ b, lookupCount (compute_posting_patterns posts).peak_hours b =
      posts.countP (fun t =>
        decide (0 < t.timestamp_ms) && decide (hour_to_slot (utcHour t.timestamp_ms) = b))) ∧
    (∀ h : Nat, h < 24 → hour_to_slot h = (_TIME_SLOTS.map Prod.fst).getD (h / 4) "" ∧
      hour_to_slot h ∈ _TIME_SLOTS.map Prod.fst) ∧
    (∀ t : Tweet, utcHour t.timestamp_ms < 24) := by
  refine ⟨rfl, ?_, ?_, by decide, ?_⟩
  · intro d
    simpa [compute_posting_patterns, lookupCount_nil] using (cadenceLoop_lookup posts [] [] hpos).1 d
  · intro b
    simpa [compute_posting_patterns, lookupCount_nil] using (cadenceLoop_lookup posts [] [] hpos).2 b
  · intro t
    unfold utcHour
    generalize (utcSeconds t.timestamp_ms).fdiv 3600 = y
    have h0 : (0 : Int) ≤ y.emod 24 := Int.emod_nonneg y (by decide)
    have h1 : y.emod 24 < 24 := Int.emod_lt_of_pos y (by decide)
    omega

/-- C7 witness: one Thursday post counted once, one zero-timestamp post
counted nowhere. -/
theorem compute_patterns_histograms_witness :
    lookupCount (compute_posting_patterns
      [⟨"1", "x", 1642723174657, 5, 1, 0, none⟩,
       ⟨"2", "y", 0, 0, 0, 0, none⟩]).peak_days "Thursday" = 1 := by
  have h := (compute_patterns_histograms
    [⟨"1", "x", 1642723174657, 5, 1, 0, none⟩, ⟨"2", "y", 0, 0, 0, 0, none⟩]
    (by decide)).2.1 "Thursday"
  rw [h]
  decide

end PersonaLens
